import Mathlib

/-!
Verification development for an emotion-aware voice/text conversation client
(React Native + Expo). The client consists of a recording state machine
(VoiceRecorder.js), a round-trip orchestrator (App.js: handleVoiceMessage,
handleTextMessage, loadConversation, startNewConversation), cross-panel
session gating (App.js render of EmotionCharacterPanel / ChatScreen), and a
history cache (ConversationHistory.js: loadConversations, deleteConversation).

The embedding below translates those functions into pure Lean functions.
Network calls are abstracted by oracle arguments (one constructor per
observable outcome of a fetch: a successful response, a received non-ok
response, or a rejected promise). The single-threaded async handlers are
modelled as functions from the pre-call state and the oracle outcomes to the
final state together with a trace of the state mutations and await points
they perform, in program order. Timestamps and emotion probabilities are
abstracted as naturals; Date.now() is passed in as the argument now
(message ids derived as in the source: now, now + 1, now + 2).
-/

/-- The two UI surfaces of App.js: the emotion character panel and the chat
screen. -/
inductive Panel
  | emotion
  | chat
deriving DecidableEq, Repr

/-- One rendered transcript line, as built by App.js (fields id, text, isUser,
emotion, emotionProbability, emotionTop3, audioUrl, timestamp). -/
structure Message where
  id : Nat
  text : String
  isUser : Bool
  emotion : Option String := none
  emotionProbability : Option Nat := none
  emotionTop3 : List (String × Nat) := []
  audioUrl : Option String := none
  timestamp : Nat := 0
deriving DecidableEq, Repr

/-- The App component state: the useState hooks of App.js. -/
structure AppState where
  messages : List Message := []
  isProcessing : Bool := false
  conversationId : Option String := none
  currentEmotion : Option String := none
  activePanel : Panel := Panel.emotion
  lastUsedPanel : Panel := Panel.emotion
  userTranscript : String := ""
  llmResponse : String := ""
  ttsAudioUrl : Option String := none
deriving DecidableEq, Repr

/-- The JSON body of a successful /api/chat/voice response. -/
structure VoiceData where
  transcribed_text : String
  detected_emotion : String
  emotion_probability : Nat
  emotion_top3 : List (String × Nat)
  llm_response : String
deriving DecidableEq, Repr

/-- Outcome of the fetch to /api/chat/voice: ok response with JSON data, a
received non-ok response (the code then throws on !response.ok), or a
rejected fetch promise (network error). -/
inductive VoiceFetch
  | ok (d : VoiceData)
  | httpError
  | netError
deriving DecidableEq, Repr

/-- Both non-ok outcomes of the voice fetch reach the catch block. -/
def VoiceFetch.failed : VoiceFetch → Bool
  | VoiceFetch.ok _ => false
  | VoiceFetch.httpError => true
  | VoiceFetch.netError => true

/-- Outcome of the fetch to /api/chat/tts: ok response (decoded into a
playable url on either platform branch), a received non-ok response
(ttsResponse.ok is false; the code proceeds with audioUrl = null), or a
rejected fetch promise (the code falls into the catch block). -/
inductive TtsFetch
  | ok (url : String)
  | httpError
  | netError
deriving DecidableEq, Repr

/-- Outcome of the fetch to /api/chat/text. -/
inductive TextFetch
  | ok (response : String)
  | httpError
  | netError
deriving DecidableEq, Repr

/-- The placeholder text of the interim user message in handleVoiceMessage. -/
def processingText : String := "음성 메시지를 처리 중입니다..."

/-- The fixed assistant error text appended in the catch blocks. -/
def errorText : String := "죄송합니다. 메시지 처리 중 오류가 발생했습니다. 다시 시도해주세요."

/-- The placeholder user message appended before the voice fetch. -/
def placeholderMsg (now : Nat) : Message :=
  { id := now, text := processingText, isUser := true, timestamp := now }

/-- The fixed-text assistant error message appended in the catch blocks
(id Date.now() + 2 in the source). -/
def errorMsg (id : Nat) (now : Nat) : Message :=
  { id := id, text := errorText, isUser := false, timestamp := now }

/-- The assistant reply message appended on the success path. -/
def assistantMsg (id : Nat) (now : Nat) (text : String) (url : Option String) :
    Message :=
  { id := id, text := text, isUser := false, audioUrl := url, timestamp := now }

/-- setMessages(prev.map(msg being the placeholder gets transcript and emotion
fields, others unchanged)): the in-place update of the placeholder. -/
def updateWithTranscript (msgs : List Message) (pid : Nat) (d : VoiceData) :
    List Message :=
  msgs.map fun m =>
    if m.id = pid then
      { m with
        text := d.transcribed_text, emotion := some d.detected_emotion,
        emotionProbability := some d.emotion_probability,
        emotionTop3 := d.emotion_top3 }
    else m

/-- The synchronous prefix of handleVoiceMessage up to (not including) the
first await: set isProcessing, set lastUsedPanel to emotion, set the transient
transcript/reply/audio hooks, append the placeholder user message. -/
def voiceBeginState (s : AppState) (now : Nat) : AppState :=
  { s with
    isProcessing := true, lastUsedPanel := Panel.emotion,
    userTranscript := processingText, llmResponse := "", ttsAudioUrl := none,
    messages := s.messages ++ [placeholderMsg now] }

/-- The state at the moment a voice Exchange begins, indexed by the surface
whose VoiceRecorder invoked onVoiceMessage. Both EmotionCharacterPanel and
ChatScreen wire onVoiceMessage to the same handleVoiceMessage, whose body
ignores the originating surface and always records lastUsedPanel = emotion. -/
def voiceExchangeBegin (origin : Panel) (s : AppState) (now : Nat) : AppState :=
  voiceBeginState s now

/-- The synchronous prefix of handleTextMessage up to the first await: set
isProcessing, set lastUsedPanel to chat, append the final user message. The
transient hooks (userTranscript, llmResponse, ttsAudioUrl) are not touched. -/
def textBeginState (s : AppState) (text : String) (now : Nat) : AppState :=
  { s with
    isProcessing := true, lastUsedPanel := Panel.chat,
    messages := s.messages ++
      [{ id := now, text := text, isUser := true, timestamp := now }] }

/-- The state at the moment a text Exchange begins; handleTextMessage always
records lastUsedPanel = chat. -/
def textExchangeBegin (origin : Panel) (s : AppState) (text : String)
    (now : Nat) : AppState :=
  textBeginState s text now

/-- The three backend endpoints the orchestrator awaits. -/
inductive Endpoint
  | chatVoice
  | chatText
  | chatTts
deriving DecidableEq, Repr

/-- One observable step of an orchestrator run: a state-setter call, a
message-list mutation, an await on a network request, or the
fire-and-forget history refresh. -/
inductive Ev
  | setProcessing (b : Bool)
  | setPanel (p : Panel)
  | setTranscript (s : String)
  | setReply (s : String)
  | setAudio (u : Option String)
  | setEmotion (e : String)
  | appendMsg (m : Message)
  | updateMsg (id : Nat)
  | netAwait (e : Endpoint)
  | histRefresh
deriving DecidableEq, Repr

/-- handleVoiceMessage of App.js, over the fetch oracles. Returns the final
App state and the trace of mutations and await points in program order.
A non-ok voice response throws (the explicit throw on !response.ok), and a
rejected voice or tts fetch throws; every throw lands in the catch block,
which appends the fixed error message; the finally block clears
isProcessing. A non-ok tts response does not throw: audioUrl stays null and
the assistant message is appended without audio. The history refresh
(conversationHistoryRef.current.loadConversations()) runs only on the paths
that reach the end of the try block. -/
def handleVoiceMessage (s : AppState) (fv : VoiceFetch) (ft : TtsFetch)
    (now : Nat) : AppState × List Ev :=
  let s1 := voiceBeginState s now
  let pre : List Ev :=
    [Ev.setProcessing true, Ev.setPanel Panel.emotion,
     Ev.setTranscript processingText, Ev.setReply "", Ev.setAudio none,
     Ev.appendMsg (placeholderMsg now), Ev.netAwait Endpoint.chatVoice]
  match fv with
  | VoiceFetch.ok d =>
    let s2 := { s1 with
                userTranscript := d.transcribed_text,
                currentEmotion := some d.detected_emotion,
                messages := updateWithTranscript s1.messages now d }
    let mid : List Ev :=
      [Ev.setTranscript d.transcribed_text, Ev.setEmotion d.detected_emotion,
       Ev.updateMsg now, Ev.netAwait Endpoint.chatTts]
    match ft with
    | TtsFetch.ok url =>
      let am := assistantMsg (now + 1) now d.llm_response (some url)
      ({ s2 with
         llmResponse := d.llm_response, ttsAudioUrl := some url,
         messages := s2.messages ++ [am], isProcessing := false },
       pre ++ mid ++ [Ev.setReply d.llm_response, Ev.setAudio (some url),
         Ev.appendMsg am, Ev.histRefresh, Ev.setProcessing false])
    | TtsFetch.httpError =>
      let am := assistantMsg (now + 1) now d.llm_response none
      ({ s2 with
         llmResponse := d.llm_response, ttsAudioUrl := none,
         messages := s2.messages ++ [am], isProcessing := false },
       pre ++ mid ++ [Ev.setReply d.llm_response, Ev.setAudio none,
         Ev.appendMsg am, Ev.histRefresh, Ev.setProcessing false])
    | TtsFetch.netError =>
      let em := errorMsg (now + 2) now
      ({ s2 with messages := s2.messages ++ [em], isProcessing := false },
       pre ++ mid ++ [Ev.appendMsg em, Ev.setProcessing false])
  | VoiceFetch.httpError =>
    let em := errorMsg (now + 2) now
    ({ s1 with messages := s1.messages ++ [em], isProcessing := false },
     pre ++ [Ev.appendMsg em, Ev.setProcessing false])
  | VoiceFetch.netError =>
    let em := errorMsg (now + 2) now
    ({ s1 with messages := s1.messages ++ [em], isProcessing := false },
     pre ++ [Ev.appendMsg em, Ev.setProcessing false])

/-- handleTextMessage of App.js, over the fetch oracles. Same shape as the
voice handler minus the placeholder and the emotion/transient updates. -/
def handleTextMessage (s : AppState) (text : String) (fr : TextFetch)
    (ft : TtsFetch) (now : Nat) : AppState × List Ev :=
  let s1 := textBeginState s text now
  let pre : List Ev :=
    [Ev.setProcessing true, Ev.setPanel Panel.chat,
     Ev.appendMsg { id := now, text := text, isUser := true, timestamp := now },
     Ev.netAwait Endpoint.chatText]
  match fr with
  | TextFetch.ok reply =>
    match ft with
    | TtsFetch.ok url =>
      let am := assistantMsg (now + 1) now reply (some url)
      ({ s1 with messages := s1.messages ++ [am], isProcessing := false },
       pre ++ [Ev.netAwait Endpoint.chatTts, Ev.appendMsg am, Ev.histRefresh,
         Ev.setProcessing false])
    | TtsFetch.httpError =>
      let am := assistantMsg (now + 1) now reply none
      ({ s1 with messages := s1.messages ++ [am], isProcessing := false },
       pre ++ [Ev.netAwait Endpoint.chatTts, Ev.appendMsg am, Ev.histRefresh,
         Ev.setProcessing false])
    | TtsFetch.netError =>
      let em := errorMsg (now + 2) now
      ({ s1 with messages := s1.messages ++ [em], isProcessing := false },
       pre ++ [Ev.netAwait Endpoint.chatTts, Ev.appendMsg em,
         Ev.setProcessing false])
  | TextFetch.httpError =>
    let em := errorMsg (now + 2) now
    ({ s1 with messages := s1.messages ++ [em], isProcessing := false },
     pre ++ [Ev.appendMsg em, Ev.setProcessing false])
  | TextFetch.netError =>
    let em := errorMsg (now + 2) now
    ({ s1 with messages := s1.messages ++ [em], isProcessing := false },
     pre ++ [Ev.appendMsg em, Ev.setProcessing false])

/-- Recognizes an await on a network request. -/
def isNetAwait : Ev → Bool
  | Ev.netAwait _ => true
  | _ => false

/-- Recognizes the append of a user-authored message. -/
def isUserAppendEv : Ev → Bool
  | Ev.appendMsg m => m.isUser
  | _ => false

/-- Recognizes the history-cache refresh step. -/
def isRefreshEv : Ev → Bool
  | Ev.histRefresh => true
  | _ => false

/-- On which voice-exchange outcomes the source reaches the history refresh:
exactly the paths where the voice request succeeds and the tts fetch does not
reject (the tts non-ok response stays on the try path). -/
def refreshFires : VoiceFetch → TtsFetch → Bool
  | VoiceFetch.ok _, TtsFetch.ok _ => true
  | VoiceFetch.ok _, TtsFetch.httpError => true
  | _, _ => false

/-- Likewise for a text exchange. -/
def refreshFiresText : TextFetch → TtsFetch → Bool
  | TextFetch.ok _, TtsFetch.ok _ => true
  | TextFetch.ok _, TtsFetch.httpError => true
  | _, _ => false

/-- The isProcessing prop App.js passes to EmotionCharacterPanel:
lastUsedPanel === emotion ? isProcessing : false. -/
def emotionPanelProcessingProp (s : AppState) : Bool :=
  if s.lastUsedPanel = Panel.emotion then s.isProcessing else false

/-- The isProcessing prop App.js passes to ChatScreen (ungated). -/
def chatScreenProcessingProp (s : AppState) : Bool :=
  s.isProcessing

/-- The VoiceRecorder start button has disabled={isProcessing}; a new voice
submission can start exactly when the received prop is false. -/
def recorderStartEnabled (isProc : Bool) : Bool :=
  !isProc

/-- ChatScreen.handleTextSubmit fires onTextMessage only when the trimmed
input is nonempty and isProcessing is false. -/
def handleTextSubmitFires (textInput : String) (isProc : Bool) : Bool :=
  (textInput.trim != "") && !isProc

/-- The transient in-flight values a surface renders: live user transcript,
live reply text, live reply audio handle. -/
structure TransientView where
  userTranscript : String
  llmResponse : String
  audioUrl : Option String
deriving DecidableEq, Repr

/-- Rendering none of the transient values. -/
def emptyTransients : TransientView :=
  { userTranscript := "", llmResponse := "", audioUrl := none }

/-- The transient props App.js passes to EmotionCharacterPanel, each gated by
lastUsedPanel === emotion. -/
def emotionPanelTransients (s : AppState) : TransientView :=
  if s.lastUsedPanel = Panel.emotion then
    { userTranscript := s.userTranscript, llmResponse := s.llmResponse,
      audioUrl := s.ttsAudioUrl }
  else emptyTransients

/-- ChatScreen receives only messages, the handlers and isProcessing: no
transient props at all. -/
def chatScreenTransients (s : AppState) : TransientView :=
  emptyTransients

/-- Which capture backend VoiceRecorder.js selects (Platform.OS branch). -/
inductive Plat
  | web
  | native
deriving DecidableEq, Repr

/-- The web MediaRecorder backend state. -/
inductive MRState
  | inactive
  | recording
  | paused
deriving DecidableEq, Repr

/-- The VoiceRecorder component state plus its capture backend: the
isRecording/isPaused/recordingTime hooks, whether the 1-second interval is
installed, the MediaRecorder state (web), whether recordingRef holds a live
expo recording and whether it is paused (native), and the number of
AudioAssets delivered so far to onRecordingComplete. -/
structure RecState where
  plat : Plat
  permissionGranted : Bool := false
  isRecording : Bool := false
  isPaused : Bool := false
  recordingTime : Nat := 0
  timerActive : Bool := false
  mrState : MRState := MRState.inactive
  nativeActive : Bool := false
  nativePaused : Bool := false
  assets : Nat := 0
deriving DecidableEq, Repr

/-- Whether startRecording gets past its backend call: it returns early
without permission; on web, MediaRecorder.start() throws unless the recorder
is inactive (the catch then skips the state updates); on native,
Audio.Recording.createAsync throws if a recording is already prepared. -/
def startOk (s : RecState) : Bool :=
  s.permissionGranted &&
    (match s.plat with
     | Plat.web => (match s.mrState with
                    | MRState.inactive => true
                    | _ => false)
     | Plat.native => !s.nativeActive)

/-- VoiceRecorder.startRecording: on success, start the backend, set
isRecording, reset recordingTime to 0, install the interval. -/
def startRecording (s : RecState) : RecState :=
  if startOk s then
    match s.plat with
    | Plat.web =>
      { s with
        mrState := MRState.recording, isRecording := true,
        recordingTime := 0, timerActive := true }
    | Plat.native =>
      { s with
        nativeActive := true, nativePaused := false,
        isRecording := true, recordingTime := 0, timerActive := true }
  else s

/-- VoiceRecorder.stopRecording: clear the interval and reset the
isRecording/isPaused flags, then finalize the backend. On web the source
calls mediaRecorder.stop() only when mediaRecorder.state === recording;
onstop then builds the File and fires onRecordingComplete. On native a live
recording is stopped and unloaded, its uri read, and the asset delivered. -/
def stopRecording (s : RecState) : RecState :=
  let s1 := { s with
    timerActive := false, isRecording := false, isPaused := false }
  match s.plat with
  | Plat.web =>
    match s.mrState with
    | MRState.recording =>
      { s1 with mrState := MRState.inactive, assets := s.assets + 1 }
    | _ => s1
  | Plat.native =>
    if s.nativeActive then
      { s1 with
        nativeActive := false, nativePaused := false, assets := s.assets + 1 }
    else s1

/-- VoiceRecorder.pauseRecording: clear the interval, set isPaused, pause the
backend (web: only when mediaRecorder.state === recording). -/
def pauseRecording (s : RecState) : RecState :=
  let s1 := { s with timerActive := false, isPaused := true }
  match s.plat with
  | Plat.web =>
    match s.mrState with
    | MRState.recording => { s1 with mrState := MRState.paused }
    | _ => s1
  | Plat.native =>
    if s.nativeActive then { s1 with nativePaused := true } else s1

/-- VoiceRecorder.resumeRecording: clear isPaused, reinstall the interval
(without resetting recordingTime), resume the backend. -/
def resumeRecording (s : RecState) : RecState :=
  let s1 := { s with isPaused := false, timerActive := true }
  match s.plat with
  | Plat.web =>
    match s.mrState with
    | MRState.paused => { s1 with mrState := MRState.recording }
    | _ => s1
  | Plat.native =>
    if s.nativeActive then { s1 with nativePaused := false } else s1

/-- One firing of the 1-second interval callback: setRecordingTime(prev + 1)
when the interval is installed. -/
def tickRecording (s : RecState) : RecState :=
  if s.timerActive then { s with recordingTime := s.recordingTime + 1 } else s

/-- The user/timer events the recorder reacts to. -/
inductive RecEv
  | start
  | pause
  | resume
  | stop
  | tick
deriving DecidableEq, Repr

/-- Dispatch one event to the matching handler. -/
def RecState.step (s : RecState) : RecEv → RecState
  | RecEv.start => startRecording s
  | RecEv.pause => pauseRecording s
  | RecEv.resume => resumeRecording s
  | RecEv.stop => stopRecording s
  | RecEv.tick => tickRecording s

/-- Run a sequence of recorder events. -/
def runRec (s : RecState) (evs : List RecEv) : RecState :=
  evs.foldl RecState.step s

/-- A web recorder with permission granted and an idle backend. -/
def webReady : RecState := { plat := Plat.web, permissionGranted := true }

/-- A native recorder with permission granted and no live recording. -/
def nativeReady : RecState := { plat := Plat.native, permissionGranted := true }

/-- One conversation summary as served by /api/history/conversations. -/
structure ConvSummary where
  id : String
  title : String := ""
  message_count : Nat := 0
deriving DecidableEq, Repr

/-- The ConversationHistory component state. -/
structure HistoryState where
  conversations : List ConvSummary := []
  isLoading : Bool := false
deriving DecidableEq, Repr

/-- Outcome of the fetch to /api/history/conversations. -/
inductive ListFetch
  | ok (l : List ConvSummary)
  | httpError
  | netError
deriving DecidableEq, Repr

/-- ConversationHistory.loadConversations: replace the list on an ok
response; on a non-ok response or a rejected fetch the list is left as is
(the catch only logs); the finally block clears isLoading. -/
def loadConversations (hs : HistoryState) (f : ListFetch) : HistoryState :=
  match f with
  | ListFetch.ok l => { hs with conversations := l, isLoading := false }
  | ListFetch.httpError => { hs with isLoading := false }
  | ListFetch.netError => { hs with isLoading := false }

/-- The App state together with the history panel state, as rendered side by
side by App.js. -/
structure SysState where
  app : AppState
  hist : HistoryState
deriving DecidableEq, Repr

/-- Outcome of the DELETE fetch for one conversation. -/
inductive DeleteOutcome
  | ok
  | httpError
  | netError
deriving DecidableEq, Repr

/-- App.startNewConversation: generate a fresh id, clear the message list and
the current emotion. -/
def startNewConversation (s : AppState) (newId : String) : AppState :=
  { s with
    conversationId := some newId, messages := [], currentEmotion := none }

/-- ConversationHistory.deleteConversation composed with the App callbacks it
is wired to (onNewConversation = startNewConversation). Without confirmation
nothing happens. On a confirmed ok response the summary is filtered out of
the local list, and when the deleted id is the active conversation the
handler itself calls onNewConversation(), which clears the transcript and
starts a fresh session. On a non-ok response or a rejected fetch only an
alert is shown and the local list is unchanged. -/
def deleteConversation (sys : SysState) (targetId : String) (confirmed : Bool)
    (outcome : DeleteOutcome) (newId : String) : SysState :=
  if confirmed then
    match outcome with
    | DeleteOutcome.ok =>
      let hist := { sys.hist with
        conversations := sys.hist.conversations.filter fun c => c.id != targetId }
      if sys.app.conversationId = some targetId then
        { app := startNewConversation sys.app newId, hist := hist }
      else
        { sys with hist := hist }
    | DeleteOutcome.httpError => sys
    | DeleteOutcome.netError => sys
  else sys

/-- One message of a /api/history/conversations/id response. -/
structure ServerMsg where
  id : Nat
  content : String
  role : String
  emotion : Option String := none
  emotion_probability : Option Nat := none
  created_at : Nat := 0
deriving DecidableEq, Repr

/-- The display-format conversion in App.loadConversation. -/
def toDisplay (m : ServerMsg) : Message :=
  { id := m.id, text := m.content, isUser := m.role == "user",
    emotion := m.emotion, emotionProbability := m.emotion_probability,
    timestamp := m.created_at }

/-- JavaScript truthiness of the optional emotion field (undefined, null and
the empty string are falsy). -/
def truthy : Option String → Bool
  | none => false
  | some s => s != ""

/-- The find predicate of App.loadConversation: m.isUser && m.emotion. -/
def isUserWithEmotion (m : Message) : Bool :=
  m.isUser && truthy m.emotion

/-- App.loadConversation, success path: convert the server messages, store
them, then search displayMessages.reverse().find(...) for a user message
with an emotion. Array.prototype.reverse mutates in place, so the array that
was stored via setMessages is the reversed one; the find runs over it, and
setCurrentEmotion fires only when a match exists. -/
def loadConversation (s : AppState) (convId : String)
    (msgs : List ServerMsg) : AppState :=
  let display := msgs.map toDisplay
  let reversed := display.reverse
  { s with
    conversationId := some convId,
    messages := reversed,
    currentEmotion :=
      match reversed.find? isUserWithEmotion with
      | some m => m.emotion
      | none => s.currentEmotion }

/-- Independent description of the emotion loadConversation should pick: the
emotion of the last user message (in server order) whose emotion field is
truthy. -/
def lastUserEmotion (display : List Message) : Option Message :=
  (display.filter isUserWithEmotion).getLast?

/-- An empty initial App state (the state right after startNewConversation on
mount, with the generated id abstracted away). -/
def s0 : AppState := {}

/-- A concrete successful voice response used for concrete evaluations. -/
def d0 : VoiceData :=
  { transcribed_text := "transcript-one", detected_emotion := "sad",
    emotion_probability := 90, emotion_top3 := [("sad", 90)],
    llm_response := "reply-one" }

/-- The App state while a chat-initiated text exchange is in flight. -/
def chatInFlight : AppState := textExchangeBegin Panel.chat s0 "hello" 1

/-- The App state right after a voice exchange initiated from the chat
surface (ChatScreen hosts a VoiceRecorder wired to handleVoiceMessage). -/
def voiceFromChat : AppState := voiceExchangeBegin Panel.chat s0 2

/-- A concrete existing user message. -/
def m0 : Message := { id := 1, text := "hi", isUser := true, timestamp := 1 }

/-- A concrete system state whose active conversation conv-a also appears in
the history list and whose transcript pane is nonempty. -/
def sys0 : SysState :=
  { app := { s0 with conversationId := some "conv-a", messages := [m0] },
    hist := { conversations := [{ id := "conv-a" }, { id := "conv-b" }] } }

/-- C1 (code bug witness): on the web backend, a stop() issued while Paused
never finalizes the MediaRecorder: the guard mediaRecorder.state ===
recording is false, so stop() is not forwarded, onstop never fires, zero
AudioAssets are delivered and the backend stays paused, while the component
state returns to Idle. The same cycle delivers exactly one AudioAsset when
stop() is called while Recording on the web, and on the native backend even
from Paused. -/
theorem c1_web_pause_stop_loses_recording :
    (runRec webReady [RecEv.start, RecEv.pause, RecEv.stop]).assets = 0 ∧
    (runRec webReady [RecEv.start, RecEv.pause, RecEv.stop]).mrState =
      MRState.paused ∧
    (runRec webReady [RecEv.start, RecEv.pause, RecEv.stop]).isRecording =
      false ∧
    (runRec webReady [RecEv.start, RecEv.stop]).assets = 1 ∧
    (runRec nativeReady [RecEv.start, RecEv.pause, RecEv.stop]).assets = 1 := by
  decide

/-- C8: the elapsed-seconds counter increments by 1 per interval firing while
the interval is installed (it is installed while Recording, removed on pause
and reinstalled on resume); pause, resume and stop never change the retained
counter; only a successful start (reachable only from Idle, since the start
button renders only while not recording) resets it to 0; and the concrete
cycle start, three ticks, stop reads elapsed = 3 at finalize time and
delivers exactly one AudioAsset. -/
theorem c8_elapsed_counter (s : RecState) :
    ((s.step RecEv.tick).recordingTime =
      (if s.timerActive then s.recordingTime + 1 else s.recordingTime)) ∧
    ((s.step RecEv.pause).recordingTime = s.recordingTime) ∧
    ((s.step RecEv.pause).timerActive = false) ∧
    ((s.step RecEv.resume).recordingTime = s.recordingTime) ∧
    ((s.step RecEv.resume).timerActive = true) ∧
    ((s.step RecEv.stop).recordingTime = s.recordingTime) ∧
    ((s.step RecEv.start).recordingTime =
      (if startOk s then 0 else s.recordingTime)) ∧
    ((s.step RecEv.start).timerActive =
      (if startOk s then true else s.timerActive)) ∧
    ((runRec webReady
        [RecEv.start, RecEv.tick, RecEv.tick, RecEv.tick, RecEv.stop]
      ).recordingTime = 3) ∧
    ((runRec webReady
        [RecEv.start, RecEv.tick, RecEv.tick, RecEv.tick, RecEv.stop]
      ).assets = 1) := by
  obtain ⟨plat, perm, ir, ip, rt, ta, mrs, na, np, a⟩ := s
  refine ⟨?_, ?_, ?_, ?_, ?_, ?_, ?_, ?_, by decide, by decide⟩ <;>
    cases plat <;> cases mrs <;> cases ta <;> cases na <;> cases perm <;>
      simp [RecState.step, startOk, startRecording, stopRecording,
        pauseRecording, resumeRecording, tickRecording]

/-- C2: in every run of handleVoiceMessage, whatever the fetch outcomes, the
first append of a user-authored message (the placeholder with the interim
processing text) occurs strictly before the first network await in the
trace, so the user turn is visible before any network call is issued. -/
theorem c2_placeholder_before_network (s : AppState) (fv : VoiceFetch)
    (ft : TtsFetch) (now : Nat) :
    (handleVoiceMessage s fv ft now).2.findIdx isUserAppendEv <
      (handleVoiceMessage s fv ft now).2.findIdx isNetAwait := by
  cases fv <;> cases ft <;> exact Nat.lt_of_sub_eq_succ rfl

/-- C3 counterexample: in the reachable state where a chat-initiated text
exchange is in flight (isProcessing = true, lastUsedPanel = chat), the
EmotionCharacterPanel receives isProcessing = false (the prop is gated by
lastUsedPanel === emotion), so its VoiceRecorder start button is enabled
and a new voice submission is not rejected, refuting the claim that every
submission is rejected regardless of which surface initiated the in-flight
Exchange. -/
theorem c3_counterexample :
    chatInFlight.isProcessing = true ∧
    recorderStartEnabled (emotionPanelProcessingProp chatInFlight) = true := by
  decide

/-- C3 (amended): while isProcessing is true, the chat surface rejects both
text submissions (the handleTextSubmit guard) and voice submissions (its
VoiceRecorder receives the ungated flag); the emotion surface rejects a new
voice submission exactly when the in-flight Exchange was recorded as
emotion-initiated (lastUsedPanel = emotion) — a chat-initiated in-flight
Exchange leaves the emotion panel recorder enabled. -/
theorem c3_gate (s : AppState) (t : String) (h : s.isProcessing = true) :
    handleTextSubmitFires t (chatScreenProcessingProp s) = false ∧
    recorderStartEnabled (chatScreenProcessingProp s) = false ∧
    recorderStartEnabled (emotionPanelProcessingProp s) =
      (if s.lastUsedPanel = Panel.emotion then false else true) := by
  refine ⟨?_, ?_, ?_⟩ <;>
    simp [handleTextSubmitFires, chatScreenProcessingProp,
      recorderStartEnabled, emotionPanelProcessingProp, h]

/-- C3 witness: the amended gate facts at the concrete in-flight state. -/
theorem c3_gate_witness :
    handleTextSubmitFires "hi" (chatScreenProcessingProp chatInFlight) = false ∧
    recorderStartEnabled (chatScreenProcessingProp chatInFlight) = false ∧
    recorderStartEnabled (emotionPanelProcessingProp chatInFlight) =
      (if chatInFlight.lastUsedPanel = Panel.emotion then false else true) :=
  c3_gate chatInFlight "hi" rfl

/-- C4 counterexample: a voice Exchange initiated from the chat surface
(voiceFromChat) sets PanelFocus to emotion rather than to the initiating
surface, and the emotion surface — the non-initiating one — renders the live
transcript transient, refuting both halves of the claim. -/
theorem c4_counterexample :
    voiceFromChat.lastUsedPanel ≠ Panel.chat ∧
    emotionPanelTransients voiceFromChat ≠ emptyTransients := by
  decide

/-- C4 (amended): at the moment an Exchange begins, PanelFocus is set to
emotion for every voice Exchange and to chat for every text Exchange,
regardless of which surface initiated it; the transient values are rendered
only by the emotion surface and only while PanelFocus = emotion (so during a
voice Exchange they appear on the emotion panel whichever surface initiated
it, and during a text Exchange no surface renders any transient); the chat
surface receives no transient props at all. -/
theorem c4_panel_focus (origin : Panel) (s : AppState) (now : Nat)
    (t : String) :
    (voiceExchangeBegin origin s now).lastUsedPanel = Panel.emotion ∧
    emotionPanelTransients (voiceExchangeBegin origin s now) =
      { userTranscript := processingText, llmResponse := "",
        audioUrl := none } ∧
    chatScreenTransients (voiceExchangeBegin origin s now) = emptyTransients ∧
    (textExchangeBegin origin s t now).lastUsedPanel = Panel.chat ∧
    emotionPanelTransients (textExchangeBegin origin s t now) =
      emptyTransients ∧
    chatScreenTransients (textExchangeBegin origin s t now) =
      emptyTransients := by
  exact ⟨rfl, rfl, rfl, rfl, rfl, rfl⟩

/-- C5 counterexample: when the voice request succeeds but the synthesis
fetch itself rejects (network error), the Exchange does not end successfully
with a text-only assistant reply — the rejection lands in the catch block,
so no message carrying the reply text is appended and the fixed error
message is appended instead. -/
theorem c5_counterexample :
    ((handleVoiceMessage s0 (VoiceFetch.ok d0) TtsFetch.netError 10).1.messages.any
      fun m => !m.isUser && m.text == "reply-one") = false ∧
    ((handleVoiceMessage s0 (VoiceFetch.ok d0) TtsFetch.netError 10).1.messages.any
      fun m => !m.isUser && m.text == errorText) = true := by
  decide

/-- C5 (amended): when the voice request succeeds and speech synthesis fails
with a received non-success response, the Exchange still ends successfully:
the final message list is the transcript-updated placeholder followed by an
appended assistant Message carrying the reply text and no audio handle (in
particular no error message replaces the reply), and the in-progress flag is
cleared. Only a rejected synthesis fetch (covered by the counterexample)
escalates to the error path. -/
theorem c5_tts_http_error_text_only (s : AppState) (d : VoiceData)
    (now : Nat) :
    (handleVoiceMessage s (VoiceFetch.ok d) TtsFetch.httpError now).1.messages =
      updateWithTranscript (s.messages ++ [placeholderMsg now]) now d ++
        [assistantMsg (now + 1) now d.llm_response none] ∧
    (handleVoiceMessage s (VoiceFetch.ok d) TtsFetch.httpError now).1.isProcessing =
      false := by
  exact ⟨rfl, rfl⟩

/-- C6: when the voice request fails (non-ok response or rejected fetch),
exactly one fixed-text assistant error message is appended after the
placeholder, the placeholder is neither removed nor blanked (it still holds
the interim processing text), and exactly one network await appears in the
whole trace — the single voice request, so no retry (and no further request
of any kind) is issued. -/
theorem c6_transport_failure (s : AppState) (fv : VoiceFetch) (ft : TtsFetch)
    (now : Nat) (h : fv.failed = true) :
    (handleVoiceMessage s fv ft now).1.messages =
      (s.messages ++ [placeholderMsg now]) ++ [errorMsg (now + 2) now] ∧
    (placeholderMsg now).text = processingText ∧
    (errorMsg (now + 2) now).text = errorText ∧
    ((handleVoiceMessage s fv ft now).2.countP fun e => isNetAwait e) = 1 := by
  cases fv with
  | ok d => simp [VoiceFetch.failed] at h
  | httpError => exact ⟨rfl, rfl, rfl, rfl⟩
  | netError => exact ⟨rfl, rfl, rfl, rfl⟩

/-- C6 witness: the transport-failure facts at a concrete failing run. -/
theorem c6_transport_failure_witness :
    (handleVoiceMessage s0 VoiceFetch.httpError TtsFetch.httpError 3).1.messages =
      (s0.messages ++ [placeholderMsg 3]) ++ [errorMsg 5 3] ∧
    (placeholderMsg 3).text = processingText ∧
    (errorMsg 5 3).text = errorText ∧
    ((handleVoiceMessage s0 VoiceFetch.httpError TtsFetch.httpError 3).2.countP
      fun e => isNetAwait e) = 1 :=
  c6_transport_failure s0 VoiceFetch.httpError TtsFetch.httpError 3 rfl

/-- C7 counterexample: on a transport failure the catch path runs and the
trace contains no history refresh — the refresh call sits at the end of the
try block only — refuting "on every outcome ... triggers a background
refresh of the History Cache" (the in-progress flag, by contrast, is
cleared). -/
theorem c7_counterexample :
    ((handleVoiceMessage s0 VoiceFetch.httpError TtsFetch.httpError 7).2.any
      isRefreshEv) = false ∧
    (handleVoiceMessage s0 VoiceFetch.httpError TtsFetch.httpError 7).1.isProcessing =
      false := by
  decide

/-- C7 (amended): on every outcome of a voice or text Exchange the finally
block clears the in-progress flag; the background History Cache refresh is
triggered exactly on the outcomes that reach the end of the try block (the
reply request succeeded and the synthesis fetch did not reject), not on
every outcome; and a failure of the refresh itself does not change any
Exchange outcome — loadConversations leaves the summary list unchanged and
returns normally on both failure modes. -/
theorem c7_finalization (s : AppState) (fv : VoiceFetch) (ft : TtsFetch)
    (t : String) (fr : TextFetch) (now : Nat) (hs : HistoryState) :
    (handleVoiceMessage s fv ft now).1.isProcessing = false ∧
    ((handleVoiceMessage s fv ft now).2.any isRefreshEv = refreshFires fv ft) ∧
    (handleTextMessage s t fr ft now).1.isProcessing = false ∧
    ((handleTextMessage s t fr ft now).2.any isRefreshEv =
      refreshFiresText fr ft) ∧
    (loadConversations hs ListFetch.httpError).conversations =
      hs.conversations ∧
    (loadConversations hs ListFetch.netError).conversations =
      hs.conversations := by
  refine ⟨?_, ?_, ?_, ?_, rfl, rfl⟩ <;>
    cases fv <;> cases ft <;> cases fr <;> rfl

/-- C9 counterexample: a confirmed, successful delete of the active
conversation does clear the transcript pane — the delete handler itself
calls onNewConversation(), wired to startNewConversation, which empties the
message list — refuting "never implicitly clears the transcript pane". -/
theorem c9_counterexample :
    (deleteConversation sys0 "conv-a" true DeleteOutcome.ok "conv-new").app.messages =
      [] ∧
    sys0.app.messages ≠ [] := by
  decide

/-- C9 (amended): a confirmed successful delete removes the entry from the
local summary list; when the deleted id is the active conversation the
handler itself invokes the caller-supplied onNewConversation callback, so
the transcript pane is cleared and a fresh session started as part of the
delete flow rather than by a separate later action; when the deleted id is
not the active conversation the App state (transcript included) is
untouched. -/
theorem c9_delete_active (sys : SysState) (tid newId : String) :
    ((deleteConversation sys tid true DeleteOutcome.ok newId).hist.conversations =
      sys.hist.conversations.filter fun c => c.id != tid) ∧
    (sys.app.conversationId = some tid →
      (deleteConversation sys tid true DeleteOutcome.ok newId).app =
        startNewConversation sys.app newId ∧
      (deleteConversation sys tid true DeleteOutcome.ok newId).app.messages =
        []) ∧
    (sys.app.conversationId ≠ some tid →
      (deleteConversation sys tid true DeleteOutcome.ok newId).app =
        sys.app) := by
  refine ⟨?_, fun h => ?_, fun h => ?_⟩
  · simp only [deleteConversation, if_true]
    split <;> rfl
  · simp [deleteConversation, h, startNewConversation]
  · simp [deleteConversation, h]

/-- C9 witness: the amended facts at concrete states, exercising both the
active-id branch and the inactive-id branch. -/
theorem c9_delete_active_witness :
    ((deleteConversation sys0 "conv-a" true DeleteOutcome.ok "conv-new").app =
      startNewConversation sys0.app "conv-new" ∧
     (deleteConversation sys0 "conv-a" true DeleteOutcome.ok "conv-new").app.messages =
      []) ∧
    (deleteConversation sys0 "conv-b" true DeleteOutcome.ok "conv-new").app =
      sys0.app :=
  ⟨(c9_delete_active sys0 "conv-a" "conv-new").2.1 rfl,
   (c9_delete_active sys0 "conv-b" "conv-new").2.2 (by decide)⟩

/-- In any list, searching the reversed list front-to-back finds the last
matching element of the original list: running find? on the reverse equals
taking the last element of the filtered list. -/
theorem find_reverse_eq_getLast_filter {α : Type} (p : α → Bool)
    (l : List α) : l.reverse.find? p = (l.filter p).getLast? :=
  (List.filter_getLast? p l).symm

/-- C10: loadConversation stores the reversed display list (the in-place
Array.prototype.reverse mutates the very array given to setMessages, so the
stored order is the reverse of the server-supplied order), and sets the
current emotion to the emotion of the last user message (in server order)
whose emotion field is truthy, leaving it unchanged when no user message
carries one; the conversation id becomes the loaded id. -/
theorem c10_load_conversation (s : AppState) (convId : String)
    (msgs : List ServerMsg) :
    (loadConversation s convId msgs).messages =
      (msgs.map toDisplay).reverse ∧
    (loadConversation s convId msgs).currentEmotion =
      (match lastUserEmotion (msgs.map toDisplay) with
       | some m => m.emotion
       | none => s.currentEmotion) ∧
    (loadConversation s convId msgs).conversationId = some convId := by
  refine ⟨rfl, ?_, rfl⟩
  simp only [loadConversation, lastUserEmotion]
  rw [find_reverse_eq_getLast_filter]
